import Mathlib

/-!
Shallow embedding of `packages/hardhat/contracts/YourContract.sol` (the
GridNFT contract): a 16x16 grid of NFTs with token ids 1..256, owner-gated
RGB color updates, coordinate mapping, enumeration of minted tokens, and an
admin-only withdrawal.

Solidity `require(cond, msg)` is modelled by `Except String`: a failing
require reverts the whole call, so a failing operation returns `.error msg`
and the caller keeps the pre-state (`applyExcept`).  Addresses are `Nat`,
with `0` playing the role of `address(0)`.  `uint8` values are `Nat`s that
the ABI bounds by 256; where the contract casts to `uint8` we take `% 256`
explicitly.
-/

/-- Decidable equality of `Except` results, so concrete contract calls can be
checked by `decide`. -/
instance {ε α : Type} [DecidableEq ε] [DecidableEq α] : DecidableEq (Except ε α) := by
  intro x y
  cases x <;> cases y
  case error.error e f =>
    exact if h : e = f then .isTrue (by rw [h]) else .isFalse (by intro hh; cases hh; exact h rfl)
  case error.ok e a => exact .isFalse (by intro hh; cases hh)
  case ok.error a e => exact .isFalse (by intro hh; cases hh)
  case ok.ok a b =>
    exact if h : a = b then .isTrue (by rw [h]) else .isFalse (by intro hh; cases hh; exact h rfl)

namespace GridNFT

abbrev Addr := Nat

/-- `GRID_SIZE` constant of the contract. -/
def GRID_SIZE : Nat := 16

/-- `MAX_SUPPLY` constant of the contract (16 * 16). -/
def MAX_SUPPLY : Nat := 256

/-- `COLOR_STEP` constant of the contract. -/
def COLOR_STEP : Nat := 17

/-- The `RGBColor` struct: three `uint8` channels. -/
structure RGBColor where
  r : Nat
  g : Nat
  b : Nat
deriving Repr, DecidableEq

/-- The two events declared by the contract. -/
inductive Event where
  | GridBoxMinted (minter : Addr) (tokenId : Nat) (x : Nat) (y : Nat)
  | ColorUpdated (owner : Addr) (tokenId : Nat) (r : Nat) (g : Nat) (b : Nat)
deriving Repr, DecidableEq

/-- Contract storage: `totalSupply`, the `mintedTokens` and `tokenColors`
mappings, the ERC721 ownership mapping (`_ownerOf`, `0` = no owner), the
`Ownable` admin, the ether balance, and the emitted event log. -/
structure ContractState where
  totalSupply : Nat
  mintedTokens : Nat → Bool
  tokenColors : Nat → RGBColor
  owners : Nat → Addr
  admin : Addr
  balance : Nat
  log : List Event

/-- Deployment state: all mappings zeroed, admin set by the constructor. -/
def initialState (admin : Addr) : ContractState :=
  { totalSupply := 0
    mintedTokens := fun _ => false
    tokenColors := fun _ => ⟨0, 0, 0⟩
    owners := fun _ => 0
    admin := admin
    balance := 0
    log := [] }

/-- `mintGridBox(tokenId)`: requires id in [1,256] and not yet minted, then
marks it minted, bumps `totalSupply`, ERC721-mints to the caller (OpenZeppelin
`_mint` reverts for the zero address and for an already-owned token), sets the
default white color and emits `GridBoxMinted`. -/
def mintGridBox (s : ContractState) (caller : Addr) (tokenId : Nat) :
    Except String ContractState :=
  if ¬ (1 ≤ tokenId ∧ tokenId ≤ MAX_SUPPLY) then .error "Invalid token ID"
  else if s.mintedTokens tokenId then .error "Token already minted"
  else if caller = 0 then .error "ERC721InvalidReceiver"
  else if s.owners tokenId ≠ 0 then .error "ERC721InvalidSender"
  else
    .ok { s with
      totalSupply := s.totalSupply + 1
      mintedTokens := fun i => if i = tokenId then true else s.mintedTokens i
      tokenColors := fun i => if i = tokenId then ⟨255, 255, 255⟩ else s.tokenColors i
      owners := fun i => if i = tokenId then caller else s.owners i
      log := s.log ++
        [Event.GridBoxMinted caller tokenId ((tokenId - 1) % GRID_SIZE)
          ((tokenId - 1) / GRID_SIZE)] }

/-- `updateColor(tokenId, r, g, b)`: the ownership require comes first
(`_ownerOf(tokenId) == msg.sender`), then the existence require, then the
color is overwritten and `ColorUpdated` emitted. -/
def updateColor (s : ContractState) (caller : Addr) (tokenId : Nat)
    (r g b : Nat) : Except String ContractState :=
  if ¬ (s.owners tokenId = caller) then .error "Not the owner of this token"
  else if ¬ (s.mintedTokens tokenId = true) then .error "Token does not exist"
  else
    .ok { s with
      tokenColors := fun i => if i = tokenId then ⟨r, g, b⟩ else s.tokenColors i
      log := s.log ++ [Event.ColorUpdated caller tokenId r g b] }

/-- The per-channel quantization of `updateColorBySteps`:
`step == 15 ? 255 : uint8(step * COLOR_STEP)` (the `uint8` cast is `% 256`). -/
def quantizeStep (step : Nat) : Nat :=
  if step = 15 then 255 else (step * COLOR_STEP) % 256

/-- `updateColorBySteps(tokenId, rStep, gStep, bStep)`: same two requires as
`updateColor`, then requires every step ≤ 15, then stores the quantized
channels and emits `ColorUpdated`. -/
def updateColorBySteps (s : ContractState) (caller : Addr) (tokenId : Nat)
    (rStep gStep bStep : Nat) : Except String ContractState :=
  if ¬ (s.owners tokenId = caller) then .error "Not the owner of this token"
  else if ¬ (s.mintedTokens tokenId = true) then .error "Token does not exist"
  else if ¬ (rStep ≤ 15 ∧ gStep ≤ 15 ∧ bStep ≤ 15) then .error "Steps must be 0-15"
  else
    .ok { s with
      tokenColors := fun i =>
        if i = tokenId then ⟨quantizeStep rStep, quantizeStep gStep, quantizeStep bStep⟩
        else s.tokenColors i
      log := s.log ++
        [Event.ColorUpdated caller tokenId (quantizeStep rStep) (quantizeStep gStep)
          (quantizeStep bStep)] }

/-- `getTokenColor(tokenId)`: requires the token minted, returns the stored
channels. -/
def getTokenColor (s : ContractState) (tokenId : Nat) : Except String RGBColor :=
  if ¬ (s.mintedTokens tokenId = true) then .error "Token does not exist"
  else .ok (s.tokenColors tokenId)

/-- `toHexString(value)` helper: two characters,
`48 + v/16 + (v/16 > 9 ? 7 : 0)` then the same for `v % 16` (uppercase hex). -/
def toHexString (value : Nat) : String :=
  String.mk
    [Char.ofNat (48 + value / 16 + (if value / 16 > 9 then 7 else 0)),
     Char.ofNat (48 + value % 16 + (if value % 16 > 9 then 7 else 0))]

/-- `getTokenColorHex(tokenId)`: requires minted, returns
`"#" ++ hex r ++ hex g ++ hex b`. -/
def getTokenColorHex (s : ContractState) (tokenId : Nat) : Except String String :=
  if ¬ (s.mintedTokens tokenId = true) then .error "Token does not exist"
  else
    .ok ("#" ++ toHexString (s.tokenColors tokenId).r ++
      toHexString (s.tokenColors tokenId).g ++ toHexString (s.tokenColors tokenId).b)

/-- `getCoordinates(tokenId)`: requires id in [1,256], returns
`((id-1) % 16, (id-1) / 16)`. -/
def getCoordinates (tokenId : Nat) : Except String (Nat × Nat) :=
  if ¬ (1 ≤ tokenId ∧ tokenId ≤ MAX_SUPPLY) then .error "Invalid token ID"
  else .ok ((tokenId - 1) % GRID_SIZE, (tokenId - 1) / GRID_SIZE)

/-- `getTokenId(x, y)`: requires x,y < 16, returns `y*16 + x + 1`. -/
def getTokenId (x y : Nat) : Except String Nat :=
  if ¬ (x < GRID_SIZE ∧ y < GRID_SIZE) then .error "Invalid coordinates"
  else .ok (y * GRID_SIZE + x + 1)

/-- `isTokenMinted(tokenId)`: requires id in [1,256], returns the mapping. -/
def isTokenMinted (s : ContractState) (tokenId : Nat) : Except String Bool :=
  if ¬ (1 ≤ tokenId ∧ tokenId ≤ MAX_SUPPLY) then .error "Invalid token ID"
  else .ok (s.mintedTokens tokenId)

/-- The token ids 1..256 in the order the `getMintedTokens` loop visits
them. -/
def idRange : List Nat :=
  (List.range MAX_SUPPLY).map (· + 1)

/-- The ids the `getMintedTokens` loop writes, in loop order: i = 1..256,
appended whenever `mintedTokens[i]`. -/
def mintedIdList (s : ContractState) : List Nat :=
  idRange.filter (fun i => s.mintedTokens i)

/-- `getMintedTokens()`: allocates `new uint256[](totalSupply)` and fills it
with the minted ids in ascending order.  Writing past the end of the array
reverts (array out of bounds); unfilled slots keep the zero default. -/
def getMintedTokens (s : ContractState) : Except String (List Nat) :=
  if (mintedIdList s).length ≤ s.totalSupply then
    .ok (mintedIdList s ++ List.replicate (s.totalSupply - (mintedIdList s).length) 0)
  else .error "array out-of-bounds access"

/-- `withdraw()`: `onlyOwner` modifier (reverts unless caller is the Ownable
admin), requires a positive balance, then sends the whole balance; if the
low-level call fails the `require(success)` reverts the call.  The success of
the external call is the oracle `transferOk`. -/
def withdraw (s : ContractState) (caller : Addr) (transferOk : Bool) :
    Except String ContractState :=
  if ¬ (caller = s.admin) then .error "OwnableUnauthorizedAccount"
  else if ¬ (0 < s.balance) then .error "No funds to withdraw"
  else if ¬ (transferOk = true) then .error "Failed to send Ether"
  else .ok { s with balance := 0 }

/-- The metadata fields interpolated into the JSON string built by
`tokenURI`: name id, the two coordinates, the color hex and the three
channel values. -/
structure Metadata where
  id : Nat
  x : Nat
  y : Nat
  r : Nat
  g : Nat
  b : Nat
  colorHex : String
deriving Repr, DecidableEq

/-- `tokenURI(tokenId)`: requires `_ownerOf(tokenId) != address(0)`, then
composes `getCoordinates`, the stored color and `getTokenColorHex` into the
JSON metadata (modelled as the record of interpolated fields). -/
def tokenURI (s : ContractState) (tokenId : Nat) : Except String Metadata :=
  if s.owners tokenId = 0 then .error "Token does not exist"
  else do
    let xy ← getCoordinates tokenId
    let colorHex ← getTokenColorHex s tokenId
    pure
      { id := tokenId, x := xy.1, y := xy.2
        r := (s.tokenColors tokenId).r
        g := (s.tokenColors tokenId).g
        b := (s.tokenColors tokenId).b
        colorHex := colorHex }

/-- Revert semantics: a failed call leaves the state unchanged. -/
def applyExcept (s : ContractState) : Except String ContractState → ContractState
  | .ok s' => s'
  | .error _ => s

/-- The state-mutating entry points of the contract.  `uint8` arguments are
`Fin 256`, as the ABI bounds them.  `deposit` is the `receive()` function. -/
inductive Op where
  | mint (caller : Addr) (tokenId : Nat)
  | setColor (caller : Addr) (tokenId : Nat) (r g b : Fin 256)
  | setColorBySteps (caller : Addr) (tokenId : Nat) (rStep gStep bStep : Fin 256)
  | withdrawEth (caller : Addr) (transferOk : Bool)
  | deposit (amount : Nat)

/-- One transaction: run the entry point, keep the new state on success and
the old state on revert. -/
def applyOp (s : ContractState) : Op → ContractState
  | .mint caller tokenId => applyExcept s (mintGridBox s caller tokenId)
  | .setColor caller tokenId r g b =>
      applyExcept s (updateColor s caller tokenId r.val g.val b.val)
  | .setColorBySteps caller tokenId rs gs bs =>
      applyExcept s (updateColorBySteps s caller tokenId rs.val gs.val bs.val)
  | .withdrawEth caller transferOk => applyExcept s (withdraw s caller transferOk)
  | .deposit amount => { s with balance := s.balance + amount }

/-- Run a sequence of transactions from deployment. -/
def execOps (admin : Addr) (ops : List Op) : ContractState :=
  ops.foldl applyOp (initialState admin)

/-- The states the deployed contract can reach. -/
def Reachable (admin : Addr) (s : ContractState) : Prop :=
  ∃ ops : List Op, s = execOps admin ops

/-- Number of minted ids among 1..256. -/
def claimedCount (s : ContractState) : Nat :=
  (mintedIdList s).length

/-- The 16-value quantization table documented for `COLOR_STEP`. -/
def quantTable : List Nat :=
  [0, 17, 34, 51, 68, 85, 102, 119, 136, 153, 170, 187, 204, 221, 238, 255]

/-- Uppercase hexadecimal digits, the alphabet of `toHexString`. -/
def hexDigits : List Char :=
  ['0', '1', '2', '3', '4', '5', '6', '7', '8', '9', 'A', 'B', 'C', 'D', 'E', 'F']

/-- Inductive invariant of the contract state: `totalSupply` counts the
minted ids in 1..256, a token is minted exactly when it has a nonzero ERC721
owner, minted ids lie in 1..256, and every stored channel fits in a
`uint8`. -/
def Inv (s : ContractState) : Prop :=
  s.totalSupply = claimedCount s ∧
  (∀ i, s.mintedTokens i = true ↔ s.owners i ≠ 0) ∧
  (∀ i, s.mintedTokens i = true → 1 ≤ i ∧ i ≤ 256) ∧
  (∀ i, (s.tokenColors i).r ≤ 255 ∧ (s.tokenColors i).g ≤ 255 ∧ (s.tokenColors i).b ≤ 255)

/-! ### Helper lemmas -/

theorem idRange_nodup : idRange.Nodup := by
  refine List.Nodup.map ?_ (List.nodup_range _)
  intro a b hab
  exact Nat.succ_injective hab

theorem mem_idRange (i : Nat) : i ∈ idRange ↔ 1 ≤ i ∧ i ≤ 256 := by
  simp only [idRange, List.mem_map, List.mem_range, MAX_SUPPLY]
  constructor
  · rintro ⟨a, ha, rfl⟩
    omega
  · rintro ⟨h1, h2⟩
    exact ⟨i - 1, by omega, by omega⟩

theorem idRange_sorted : idRange.Sorted (· < ·) := by
  refine List.Pairwise.map _ ?_ (List.pairwise_lt_range _)
  intro a b hab
  exact Nat.succ_lt_succ hab

theorem length_filter_update (l : List Nat) (t : Nat) (p : Nat → Bool)
    (hnd : l.Nodup) (hmem : t ∈ l) (hp : p t = false) :
    (l.filter (fun i => if i = t then true else p i)).length
      = (l.filter p).length + 1 := by
  induction l with
  | nil => cases hmem
  | cons a l ih =>
    rcases List.nodup_cons.mp hnd with ⟨ha, hnd'⟩
    rcases List.mem_cons.mp hmem with rfl | hmem'
    · have hcongr : l.filter (fun i => if i = t then true else p i) = l.filter p := by
        refine List.filter_congr ?_
        intro i hi
        have : i ≠ t := fun h => ha (h ▸ hi)
        simp [this]
      rw [List.filter_cons, List.filter_cons, hcongr]
      simp [hp]
    · have hat : a ≠ t := fun h => ha (h ▸ hmem')
      rw [List.filter_cons, List.filter_cons]
      have hpa : (if a = t then true else p a) = p a := by simp [hat]
      rw [hpa]
      cases hb : p a
      · simp only [Bool.false_eq_true, if_false]
        exact ih hnd' hmem'
      · simp only [if_true, List.length_cons]
        rw [ih hnd' hmem']

theorem quantizeStep_eq (step : Nat) (h : step ≤ 15) :
    quantizeStep step = if step = 15 then 255 else step * 17 := by
  unfold quantizeStep COLOR_STEP
  by_cases h15 : step = 15
  · simp [h15]
  · have : step * 17 < 256 := by omega
    simp [h15, Nat.mod_eq_of_lt this]

theorem quantizeStep_mem (step : Nat) (h : step ≤ 15) :
    quantizeStep step ∈ quantTable := by
  interval_cases step <;> decide

theorem quantizeStep_le (step : Nat) : quantizeStep step ≤ 255 := by
  unfold quantizeStep
  by_cases h15 : step = 15
  · simp [h15]
  · simp only [h15, if_false]
    have : (step * COLOR_STEP) % 256 < 256 := Nat.mod_lt _ (by norm_num)
    omega

theorem inv_initialState (admin : Addr) : Inv (initialState admin) := by
  refine ⟨?_, ?_, ?_, ?_⟩
  · simp [initialState, claimedCount, mintedIdList]
  · intro i
    simp [initialState]
  · intro i h
    simp [initialState] at h
  · intro i
    simp [initialState]

theorem inv_mintGridBox (s : ContractState) (caller : Addr) (tokenId : Nat)
    (hinv : Inv s) : Inv (applyExcept s (mintGridBox s caller tokenId)) := by
  obtain ⟨hcount, hiff, hrange, hcol⟩ := hinv
  unfold mintGridBox
  split_ifs with h1 h2 h3 h4
  all_goals try exact ⟨hcount, hiff, hrange, hcol⟩
  simp only [applyExcept]
  have h1' : 1 ≤ tokenId ∧ tokenId ≤ 256 := h1
  have h3' : caller ≠ 0 := h3
  have hfalse : s.mintedTokens tokenId = false := by
    cases hmt : s.mintedTokens tokenId
    · rfl
    · exact absurd hmt h2
  refine ⟨?_, ?_, ?_, ?_⟩
  · show s.totalSupply + 1 =
      (idRange.filter (fun i => if i = tokenId then true else s.mintedTokens i)).length
    rw [length_filter_update idRange tokenId (fun i => s.mintedTokens i)
      idRange_nodup ((mem_idRange tokenId).mpr h1') hfalse]
    exact congrArg (· + 1) hcount
  · intro i
    show (if i = tokenId then true else s.mintedTokens i) = true ↔
      (if i = tokenId then caller else s.owners i) ≠ 0
    by_cases hit : i = tokenId
    · simpa [hit] using h3'
    · simp only [hit, if_false]
      exact hiff i
  · intro i h
    by_cases hit : i = tokenId
    · subst hit
      omega
    · refine hrange i ?_
      have h' : (if i = tokenId then true else s.mintedTokens i) = true := h
      simpa [hit] using h'
  · intro i
    show (if i = tokenId then (⟨255, 255, 255⟩ : RGBColor) else s.tokenColors i).r ≤ 255 ∧
      (if i = tokenId then (⟨255, 255, 255⟩ : RGBColor) else s.tokenColors i).g ≤ 255 ∧
      (if i = tokenId then (⟨255, 255, 255⟩ : RGBColor) else s.tokenColors i).b ≤ 255
    by_cases hit : i = tokenId
    · simp [hit]
    · simp only [hit, if_false]
      exact hcol i

theorem inv_updateColor (s : ContractState) (caller : Addr) (tokenId r g b : Nat)
    (hinv : Inv s) (hr : r ≤ 255) (hg : g ≤ 255) (hb : b ≤ 255) :
    Inv (applyExcept s (updateColor s caller tokenId r g b)) := by
  obtain ⟨hcount, hiff, hrange, hcol⟩ := hinv
  unfold updateColor
  split_ifs with h1 h2
  all_goals try exact ⟨hcount, hiff, hrange, hcol⟩
  simp only [applyExcept]
  refine ⟨hcount, hiff, hrange, ?_⟩
  intro i
  show (if i = tokenId then (⟨r, g, b⟩ : RGBColor) else s.tokenColors i).r ≤ 255 ∧
    (if i = tokenId then (⟨r, g, b⟩ : RGBColor) else s.tokenColors i).g ≤ 255 ∧
    (if i = tokenId then (⟨r, g, b⟩ : RGBColor) else s.tokenColors i).b ≤ 255
  by_cases hit : i = tokenId
  · simp only [hit, if_true]
    exact ⟨hr, hg, hb⟩
  · simp only [hit, if_false]
    exact hcol i

theorem inv_updateColorBySteps (s : ContractState) (caller : Addr)
    (tokenId rStep gStep bStep : Nat) (hinv : Inv s) :
    Inv (applyExcept s (updateColorBySteps s caller tokenId rStep gStep bStep)) := by
  obtain ⟨hcount, hiff, hrange, hcol⟩ := hinv
  unfold updateColorBySteps
  split_ifs with h1 h2 h3
  all_goals try exact ⟨hcount, hiff, hrange, hcol⟩
  simp only [applyExcept]
  refine ⟨hcount, hiff, hrange, ?_⟩
  intro i
  show (if i = tokenId then
      (⟨quantizeStep rStep, quantizeStep gStep, quantizeStep bStep⟩ : RGBColor)
      else s.tokenColors i).r ≤ 255 ∧
    (if i = tokenId then
      (⟨quantizeStep rStep, quantizeStep gStep, quantizeStep bStep⟩ : RGBColor)
      else s.tokenColors i).g ≤ 255 ∧
    (if i = tokenId then
      (⟨quantizeStep rStep, quantizeStep gStep, quantizeStep bStep⟩ : RGBColor)
      else s.tokenColors i).b ≤ 255
  by_cases hit : i = tokenId
  · simp only [hit, if_true]
    exact ⟨quantizeStep_le rStep, quantizeStep_le gStep, quantizeStep_le bStep⟩
  · simp only [hit, if_false]
    exact hcol i

theorem inv_withdraw (s : ContractState) (caller : Addr) (transferOk : Bool)
    (hinv : Inv s) : Inv (applyExcept s (withdraw s caller transferOk)) := by
  obtain ⟨hcount, hiff, hrange, hcol⟩ := hinv
  unfold withdraw
  split_ifs <;> exact ⟨hcount, hiff, hrange, hcol⟩

theorem applyOp_inv (s : ContractState) (op : Op) (hinv : Inv s) :
    Inv (applyOp s op) := by
  cases op with
  | mint caller tokenId => exact inv_mintGridBox s caller tokenId hinv
  | setColor caller tokenId r g b =>
      exact inv_updateColor s caller tokenId r.val g.val b.val hinv
        (by omega) (by omega) (by omega)
  | setColorBySteps caller tokenId rs gs bs =>
      exact inv_updateColorBySteps s caller tokenId rs.val gs.val bs.val hinv
  | withdrawEth caller transferOk => exact inv_withdraw s caller transferOk hinv
  | deposit amount => exact hinv

theorem inv_foldl (ops : List Op) (s : ContractState) (hinv : Inv s) :
    Inv (ops.foldl applyOp s) := by
  induction ops generalizing s with
  | nil => exact hinv
  | cons op ops ih => exact ih _ (applyOp_inv s op hinv)

theorem inv_reachable (admin : Addr) (s : ContractState)
    (h : Reachable admin s) : Inv s := by
  obtain ⟨ops, rfl⟩ := h
  exact inv_foldl ops _ (inv_initialState admin)

/-! ### Claim theorems -/

/-- C1: `mintGridBox(tokenId)` called by `caller` fails with "Invalid token
ID" when tokenId is outside [1,256]; fails with "Token already minted" when
the cell is already minted, leaving the state unchanged (re-submission is
deterministic because the embedded call is a function of the state); and
otherwise succeeds, setting minted = true and owner = caller for that id,
incrementing `totalSupply` by one, initialising the cell's color to white
(255,255,255), and emitting `GridBoxMinted(caller, id, (id-1) % 16,
(id-1) / 16)`.  The success case carries the two conditions every reachable
EVM state satisfies: `msg.sender` is never the zero address, and an unminted
token has no ERC721 owner. -/
theorem mintGridBox_spec (s : ContractState) (caller : Addr) (tokenId : Nat) :
    (¬ (1 ≤ tokenId ∧ tokenId ≤ 256) →
      mintGridBox s caller tokenId = .error "Invalid token ID") ∧
    (1 ≤ tokenId ∧ tokenId ≤ 256 → s.mintedTokens tokenId = true →
      mintGridBox s caller tokenId = .error "Token already minted" ∧
      applyExcept s (mintGridBox s caller tokenId) = s) ∧
    (1 ≤ tokenId ∧ tokenId ≤ 256 → s.mintedTokens tokenId = false →
      caller ≠ 0 → s.owners tokenId = 0 →
      ∃ s', mintGridBox s caller tokenId = .ok s' ∧
        s'.mintedTokens tokenId = true ∧
        s'.owners tokenId = caller ∧
        s'.totalSupply = s.totalSupply + 1 ∧
        s'.tokenColors tokenId = ⟨255, 255, 255⟩ ∧
        s'.log = s.log ++ [Event.GridBoxMinted caller tokenId
          ((tokenId - 1) % 16) ((tokenId - 1) / 16)]) := by
  refine ⟨?_, ?_, ?_⟩
  · intro h
    unfold mintGridBox
    split_ifs with ha hb hc hd
    all_goals first
    | rfl
    | exact absurd ha h
  · intro h1c h2c
    constructor
    all_goals
      unfold mintGridBox
      split_ifs with ha hb hc hd
      all_goals first
      | rfl
      | exact absurd h1c ha
      | exact absurd h2c hb
  · intro h1c h2false hcaller howners
    unfold mintGridBox
    split_ifs with ha hb hc hd
    all_goals first
    | exact absurd h1c ha
    | exact absurd (h2false ▸ hb) (by decide)
    | exact absurd hb hcaller
    | exact absurd hc hcaller
    | exact absurd howners hb
    | exact absurd howners hc
    | exact absurd howners hd
    | exact ⟨_, rfl, by simp, by simp, rfl, by simp, rfl⟩

/-- C1 witness: minting token 1 from the deployment state. -/
theorem mintGridBox_spec_witness :
    ∃ s', mintGridBox (initialState 7) 5 1 = .ok s' ∧
      s'.mintedTokens 1 = true ∧
      s'.owners 1 = 5 ∧
      s'.totalSupply = (initialState 7).totalSupply + 1 ∧
      s'.tokenColors 1 = ⟨255, 255, 255⟩ ∧
      s'.log = (initialState 7).log ++ [Event.GridBoxMinted 5 1
        ((1 - 1) % 16) ((1 - 1) / 16)] :=
  (mintGridBox_spec (initialState 7) 5 1).2.2 (by decide) rfl (by decide) rfl

/-- C2: `getCoordinates` and `getTokenId` are mutually inverse bijections
between ids 1..256 and grid positions [0,15] x [0,15], and each rejects
inputs outside its domain with its revert message. -/
theorem coordinate_bijection :
    (∀ id : Nat, 1 ≤ id ∧ id ≤ 256 →
      getCoordinates id = .ok ((id - 1) % 16, (id - 1) / 16) ∧
      getTokenId ((id - 1) % 16) ((id - 1) / 16) = .ok id) ∧
    (∀ x y : Nat, x ≤ 15 ∧ y ≤ 15 →
      getTokenId x y = .ok (y * 16 + x + 1) ∧
      getCoordinates (y * 16 + x + 1) = .ok (x, y)) ∧
    (∀ id : Nat, ¬ (1 ≤ id ∧ id ≤ 256) →
      getCoordinates id = .error "Invalid token ID") ∧
    (∀ x y : Nat, ¬ (x ≤ 15 ∧ y ≤ 15) →
      getTokenId x y = .error "Invalid coordinates") := by
  refine ⟨?_, ?_, ?_, ?_⟩
  · intro id h
    constructor
    · simp only [getCoordinates, GRID_SIZE, MAX_SUPPLY]
      rw [if_neg]
      omega
    · simp only [getTokenId, GRID_SIZE]
      rw [if_neg]
      · congr 1
        omega
      · simp only [not_not]
        exact ⟨Nat.mod_lt _ (by norm_num), by omega⟩
  · intro x y h
    constructor
    · simp only [getTokenId, GRID_SIZE]
      rw [if_neg]
      omega
    · simp only [getCoordinates, GRID_SIZE, MAX_SUPPLY]
      rw [if_neg]
      · have hx : (y * 16 + x + 1 - 1) % 16 = x := by omega
        have hy : (y * 16 + x + 1 - 1) / 16 = y := by omega
        rw [hx, hy]
      · omega
  · intro id h
    simp only [getCoordinates, MAX_SUPPLY]
    rw [if_pos h]
  · intro x y h
    simp only [getTokenId, GRID_SIZE]
    rw [if_pos]
    omega

/-- C2 witness: the round trip through id 42 at coordinates (9, 2). -/
theorem coordinate_bijection_witness :
    getCoordinates 42 = .ok ((42 - 1) % 16, (42 - 1) / 16) ∧
    getTokenId ((42 - 1) % 16) ((42 - 1) / 16) = .ok 42 :=
  coordinate_bijection.1 42 (by decide)

/-- C3 counterexample: on the freshly deployed contract, cell 1 is unclaimed,
yet `updateColor` from caller 5 fails with "Not the owner of this token"
(the ownership require precedes the existence require), not with the
"Token does not exist" error the claim demands. -/
theorem updateColor_unclaimed_counterexample :
    (initialState 7).mintedTokens 1 = false ∧
    updateColor (initialState 7) 5 1 10 20 30 = .error "Not the owner of this token" ∧
    updateColor (initialState 7) 5 1 10 20 30 ≠ .error "Token does not exist" :=
  ⟨rfl, rfl, fun h => absurd (Except.error.inj h) (by decide)⟩

/-- C3 amended: for every unclaimed cell (no minted flag and no ERC721 owner,
as in every reachable state) and every nonzero caller, `updateColor` fails
with the NotOwner error "Not the owner of this token", because the ownership
check `_ownerOf(tokenId) == msg.sender` runs before the existence check; the
"Token does not exist" error would be reached only by the zero address. -/
theorem updateColor_unclaimed_notOwner (s : ContractState) (caller : Addr)
    (tokenId r g b : Nat)
    (hunclaimed : s.mintedTokens tokenId = false)
    (howner : s.owners tokenId = 0) (hcaller : caller ≠ 0) :
    updateColor s caller tokenId r g b = .error "Not the owner of this token" := by
  have hno : ¬ (s.owners tokenId = caller) := by
    rw [howner]
    exact fun h => hcaller h.symm
  unfold updateColor
  rw [if_pos hno]

/-- C3 amended witness: unclaimed cell 2, caller 5. -/
theorem updateColor_unclaimed_notOwner_witness :
    updateColor (initialState 7) 5 2 1 2 3 = .error "Not the owner of this token" :=
  updateColor_unclaimed_notOwner (initialState 7) 5 2 1 2 3 rfl rfl (by decide)

/-- C4: for a minted cell owned by A, `updateColor` from any other caller B
fails with "Not the owner of this token" and leaves the cell's color
unchanged, while `updateColor` from A succeeds and `getTokenColor` then
returns exactly the new channels. -/
theorem updateColor_owner_gate (s : ContractState) (tokenId : Nat)
    (A B : Addr) (r g b : Nat)
    (hmint : s.mintedTokens tokenId = true) (hown : s.owners tokenId = A)
    (hne : B ≠ A) :
    (updateColor s B tokenId r g b = .error "Not the owner of this token" ∧
      (applyExcept s (updateColor s B tokenId r g b)).tokenColors tokenId
        = s.tokenColors tokenId) ∧
    ∃ s', updateColor s A tokenId r g b = .ok s' ∧
      getTokenColor s' tokenId = .ok ⟨r, g, b⟩ := by
  have hnoB : ¬ (s.owners tokenId = B) := by
    rw [hown]
    exact fun h => hne h.symm
  constructor
  · constructor
    · unfold updateColor
      rw [if_pos hnoB]
    · unfold updateColor
      rw [if_pos hnoB]
      rfl
  · unfold updateColor
    rw [if_neg (not_not_intro hown), if_neg (not_not_intro hmint)]
    refine ⟨_, rfl, ?_⟩
    unfold getTokenColor
    rw [if_neg (not_not_intro hmint)]
    simp

/-- C4 witness: after caller 55 mints cell 5, caller 66 cannot recolor it
but caller 55 can, and the stored color reads back as (1, 2, 3). -/
theorem updateColor_owner_gate_witness :
    (updateColor (execOps 7 [Op.mint 55 5]) 66 5 1 2 3
        = .error "Not the owner of this token" ∧
      (applyExcept (execOps 7 [Op.mint 55 5])
        (updateColor (execOps 7 [Op.mint 55 5]) 66 5 1 2 3)).tokenColors 5
        = (execOps 7 [Op.mint 55 5]).tokenColors 5) ∧
    ∃ s', updateColor (execOps 7 [Op.mint 55 5]) 55 5 1 2 3 = .ok s' ∧
      getTokenColor s' 5 = .ok ⟨1, 2, 3⟩ :=
  updateColor_owner_gate (execOps 7 [Op.mint 55 5]) 5 55 66 1 2 3 rfl rfl (by decide)

/-- C5: under the authorization of `updateColor` (the caller owns the minted
cell), `updateColorBySteps` fails with "Steps must be 0-15" when any step
exceeds 15, and otherwise stores for each channel the quantized value 255
when the step is 15 and step * 17 otherwise (the `uint8` cast `% 256` never
truncates, since step * 17 ≤ 238 for step ≤ 14), so every stored channel is
a member of the 16-value quantization table. -/
theorem updateColorBySteps_spec (s : ContractState) (caller : Addr)
    (tokenId rStep gStep bStep : Nat)
    (hown : s.owners tokenId = caller) (hmint : s.mintedTokens tokenId = true) :
    (¬ (rStep ≤ 15 ∧ gStep ≤ 15 ∧ bStep ≤ 15) →
      updateColorBySteps s caller tokenId rStep gStep bStep
        = .error "Steps must be 0-15") ∧
    (rStep ≤ 15 → gStep ≤ 15 → bStep ≤ 15 →
      ∃ s', updateColorBySteps s caller tokenId rStep gStep bStep = .ok s' ∧
        s'.tokenColors tokenId =
          ⟨if rStep = 15 then 255 else rStep * 17,
           if gStep = 15 then 255 else gStep * 17,
           if bStep = 15 then 255 else bStep * 17⟩ ∧
        (s'.tokenColors tokenId).r ∈ quantTable ∧
        (s'.tokenColors tokenId).g ∈ quantTable ∧
        (s'.tokenColors tokenId).b ∈ quantTable) := by
  constructor
  · intro h
    unfold updateColorBySteps
    rw [if_neg (not_not_intro hown), if_neg (not_not_intro hmint), if_pos h]
  · intro hr hg hb
    unfold updateColorBySteps
    rw [if_neg (not_not_intro hown), if_neg (not_not_intro hmint),
      if_neg (not_not_intro ⟨hr, hg, hb⟩)]
    refine ⟨_, rfl, ?_, ?_, ?_, ?_⟩
    · show (if tokenId = tokenId then
          (⟨quantizeStep rStep, quantizeStep gStep, quantizeStep bStep⟩ : RGBColor)
          else s.tokenColors tokenId) = _
      rw [if_pos rfl, quantizeStep_eq rStep hr, quantizeStep_eq gStep hg,
        quantizeStep_eq bStep hb]
    · simpa using quantizeStep_mem rStep hr
    · simpa using quantizeStep_mem gStep hg
    · simpa using quantizeStep_mem bStep hb

/-- C5 witness: on cell 5 minted by caller 55, steps (15,15,15) store
(255,255,255), steps (0,0,0) store (0,0,0), and a step of 16 reverts. -/
theorem updateColorBySteps_spec_witness :
    (∃ s', updateColorBySteps (execOps 7 [Op.mint 55 5]) 55 5 15 15 15 = .ok s' ∧
      s'.tokenColors 5 =
        ⟨if 15 = 15 then 255 else 15 * 17,
         if 15 = 15 then 255 else 15 * 17,
         if 15 = 15 then 255 else 15 * 17⟩ ∧
      (s'.tokenColors 5).r ∈ quantTable ∧
      (s'.tokenColors 5).g ∈ quantTable ∧
      (s'.tokenColors 5).b ∈ quantTable) ∧
    updateColorBySteps (execOps 7 [Op.mint 55 5]) 55 5 16 0 0
      = .error "Steps must be 0-15" :=
  ⟨(updateColorBySteps_spec (execOps 7 [Op.mint 55 5]) 55 5 15 15 15 rfl rfl).2
      (by decide) (by decide) (by decide),
    (updateColorBySteps_spec (execOps 7 [Op.mint 55 5]) 55 5 16 0 0 rfl rfl).1
      (by decide)⟩

/-- C6: in every state reachable from deployment by any sequence of the
contract's state-mutating entry points, `totalSupply` equals the number of
minted ids among 1..256. -/
theorem totalSupply_eq_claimedCount (admin : Addr) (s : ContractState)
    (h : Reachable admin s) : s.totalSupply = claimedCount s :=
  (inv_reachable admin s h).1

/-- C6 witness: after two mints and a failed re-mint of id 1. -/
theorem totalSupply_eq_claimedCount_witness :
    (execOps 7 [Op.mint 5 1, Op.mint 6 42, Op.mint 9 1]).totalSupply
      = claimedCount (execOps 7 [Op.mint 5 1, Op.mint 6 42, Op.mint 9 1]) :=
  totalSupply_eq_claimedCount 7 _ ⟨[Op.mint 5 1, Op.mint 6 42, Op.mint 9 1], rfl⟩

set_option maxHeartbeats 2000000 in
/-- C7: in every reachable state, `getMintedTokens` returns exactly the
minted ids of 1..256, in strictly ascending order, with length equal to
`totalSupply`; in particular, after claiming exactly ids 1, 17 and 256 it
returns [1, 17, 256] and `totalSupply` is 3. -/
theorem getMintedTokens_spec (admin : Addr) (s : ContractState)
    (h : Reachable admin s) :
    getMintedTokens s = .ok (mintedIdList s) ∧
    (mintedIdList s).Sorted (· < ·) ∧
    (mintedIdList s).length = s.totalSupply ∧
    (∀ i, i ∈ mintedIdList s ↔ 1 ≤ i ∧ i ≤ 256 ∧ s.mintedTokens i = true) ∧
    getMintedTokens (execOps admin [Op.mint 5 1, Op.mint 5 17, Op.mint 6 256])
      = .ok [1, 17, 256] ∧
    (execOps admin [Op.mint 5 1, Op.mint 5 17, Op.mint 6 256]).totalSupply = 3 := by
  have hlen : (mintedIdList s).length = s.totalSupply :=
    (inv_reachable admin s h).1.symm
  refine ⟨?_, ?_, hlen, ?_, rfl, rfl⟩
  · unfold getMintedTokens
    rw [if_pos (le_of_eq hlen), hlen]
    simp
  · exact List.Pairwise.sublist (List.filter_sublist _) idRange_sorted
  · intro i
    simp only [mintedIdList, List.mem_filter, mem_idRange, decide_eq_true_eq]
    tauto

/-- C7 witness: the enumeration after claiming ids 1, 17 and 256. -/
theorem getMintedTokens_spec_witness :
    getMintedTokens (execOps 7 [Op.mint 5 1, Op.mint 5 17, Op.mint 6 256])
      = .ok [1, 17, 256] ∧
    (execOps 7 [Op.mint 5 1, Op.mint 5 17, Op.mint 6 256]).totalSupply = 3 :=
  ⟨(getMintedTokens_spec 7 _ ⟨[], rfl⟩).2.2.2.2.1,
   (getMintedTokens_spec 7 _ ⟨[], rfl⟩).2.2.2.2.2⟩

/-- C8: `withdraw` fails with the Ownable unauthorized error for every caller
other than the contract admin; fails with "No funds to withdraw" when the
balance is zero; and otherwise is atomic: when the external transfer fails
the whole call reverts and the balance is unchanged, and when it succeeds
the entire balance is zeroed in one step. -/
theorem withdraw_spec (s : ContractState) (caller : Addr) (transferOk : Bool) :
    (caller ≠ s.admin →
      withdraw s caller transferOk = .error "OwnableUnauthorizedAccount") ∧
    (caller = s.admin → s.balance = 0 →
      withdraw s caller transferOk = .error "No funds to withdraw") ∧
    (caller = s.admin → 0 < s.balance → transferOk = false →
      withdraw s caller transferOk = .error "Failed to send Ether" ∧
      (applyExcept s (withdraw s caller transferOk)).balance = s.balance) ∧
    (caller = s.admin → 0 < s.balance → transferOk = true →
      withdraw s caller transferOk = .ok { s with balance := 0 }) := by
  refine ⟨?_, ?_, ?_, ?_⟩
  · intro h
    unfold withdraw
    rw [if_pos h]
  · intro h1 h2
    unfold withdraw
    rw [if_neg (not_not_intro h1), if_pos (by omega)]
  · intro h1 h2 h3
    constructor
    · unfold withdraw
      rw [if_neg (not_not_intro h1), if_neg (not_not_intro h2),
        if_pos (by rw [h3]; exact Bool.false_ne_true)]
    · unfold withdraw
      rw [if_neg (not_not_intro h1), if_neg (not_not_intro h2),
        if_pos (by rw [h3]; exact Bool.false_ne_true)]
      rfl
  · intro h1 h2 h3
    unfold withdraw
    rw [if_neg (not_not_intro h1), if_neg (not_not_intro h2),
      if_neg (not_not_intro h3)]

/-- C8 witness: with 100 wei deposited, a failing transfer by the admin
(address 7) reverts with the transfer error and preserves the balance. -/
theorem withdraw_spec_witness :
    withdraw (execOps 7 [Op.deposit 100]) 7 false = .error "Failed to send Ether" ∧
    (applyExcept (execOps 7 [Op.deposit 100])
      (withdraw (execOps 7 [Op.deposit 100]) 7 false)).balance
      = (execOps 7 [Op.deposit 100]).balance :=
  (withdraw_spec (execOps 7 [Op.deposit 100]) 7 false).2.2.1 rfl (by decide) rfl

set_option maxRecDepth 8192 in
set_option maxHeartbeats 1000000 in
theorem toHexString_two_hex_digits :
    ∀ v : Nat, v < 256 → (toHexString v).toList.length = 2 ∧
      ∀ c ∈ (toHexString v).toList, c ∈ hexDigits := by decide

/-- C9: in every reachable state, `tokenURI` fails (with "Token does not
exist") exactly on the unminted ids; on a minted id it returns the metadata
record with the cell's coordinates, its stored channels, and the color hex
string "#" followed by two uppercase hex digits per channel; immediately
after minting cell 1 it yields
`{id 1, x 0, y 0, r 255, g 255, b 255, colorHex "#FFFFFF"}`. -/
theorem tokenURI_spec (admin : Addr) (s : ContractState) (h : Reachable admin s) :
    (∀ id, s.mintedTokens id = false →
      tokenURI s id = .error "Token does not exist") ∧
    (∀ id, s.mintedTokens id = true →
      tokenURI s id = .ok
        { id := id, x := (id - 1) % 16, y := (id - 1) / 16
          r := (s.tokenColors id).r, g := (s.tokenColors id).g
          b := (s.tokenColors id).b
          colorHex := "#" ++ toHexString (s.tokenColors id).r
            ++ toHexString (s.tokenColors id).g
            ++ toHexString (s.tokenColors id).b }) ∧
    (∀ id, (∃ e, tokenURI s id = .error e) ↔ s.mintedTokens id = false) ∧
    (∀ v : Nat, v ≤ 255 → (toHexString v).toList.length = 2 ∧
      ∀ c ∈ (toHexString v).toList, c ∈ hexDigits) ∧
    tokenURI (applyOp (initialState 7) (Op.mint 5 1)) 1
      = .ok { id := 1, x := 0, y := 0, r := 255, g := 255, b := 255
              colorHex := "#FFFFFF" } := by
  have hinv := inv_reachable admin s h
  have h1 : ∀ id, s.mintedTokens id = false →
      tokenURI s id = .error "Token does not exist" := by
    intro id hmint
    have howner : s.owners id = 0 := by
      by_contra hc
      rw [(hinv.2.1 id).mpr hc] at hmint
      cases hmint
    unfold tokenURI
    rw [if_pos howner]
  have h2 : ∀ id, s.mintedTokens id = true →
      tokenURI s id = .ok
        { id := id, x := (id - 1) % 16, y := (id - 1) / 16
          r := (s.tokenColors id).r, g := (s.tokenColors id).g
          b := (s.tokenColors id).b
          colorHex := "#" ++ toHexString (s.tokenColors id).r
            ++ toHexString (s.tokenColors id).g
            ++ toHexString (s.tokenColors id).b } := by
    intro id hmint
    have howner : s.owners id ≠ 0 := (hinv.2.1 id).mp hmint
    have hrange : 1 ≤ id ∧ id ≤ MAX_SUPPLY := hinv.2.2.1 id hmint
    have hcoords : getCoordinates id = .ok ((id - 1) % 16, (id - 1) / 16) := by
      unfold getCoordinates
      rw [if_neg (not_not_intro hrange)]
      rfl
    have hhex : getTokenColorHex s id = .ok ("#" ++ toHexString (s.tokenColors id).r
        ++ toHexString (s.tokenColors id).g ++ toHexString (s.tokenColors id).b) := by
      unfold getTokenColorHex
      rw [if_neg (not_not_intro hmint)]
    unfold tokenURI
    rw [if_neg howner, hcoords, hhex]
    rfl
  refine ⟨h1, h2, ?_, ?_, ?_⟩
  · intro id
    constructor
    · rintro ⟨e, he⟩
      cases hmt : s.mintedTokens id
      · rfl
      · rw [h2 id hmt] at he
        cases he
    · intro hmt
      exact ⟨_, h1 id hmt⟩
  · intro v hv
    exact toHexString_two_hex_digits v (by omega)
  · rfl

/-- C9 witness: the metadata of cell 1 right after caller 5 mints it. -/
theorem tokenURI_spec_witness :
    tokenURI (applyOp (initialState 7) (Op.mint 5 1)) 1
      = .ok { id := 1, x := 0, y := 0, r := 255, g := 255, b := 255
              colorHex := "#FFFFFF" } :=
  (tokenURI_spec 7 (initialState 7) ⟨[], rfl⟩).2.2.2.2

/-- C10: claimed status is monotone under every state-mutating entry point:
a minted id stays minted after any `mintGridBox`, `updateColor`,
`updateColorBySteps`, `withdraw` or `receive` transaction (reads are pure
Solidity `view`/`pure` functions of the state and change nothing), and
`totalSupply` never decreases. -/
theorem minted_monotone (s : ContractState) (op : Op) :
    (∀ id, s.mintedTokens id = true → (applyOp s op).mintedTokens id = true) ∧
    s.totalSupply ≤ (applyOp s op).totalSupply := by
  cases op with
  | mint caller tokenId =>
    simp only [applyOp]
    unfold mintGridBox
    split_ifs with h1 h2 h3 h4
    all_goals try exact ⟨fun id h => h, le_refl _⟩
    constructor
    · intro id h
      show (if id = tokenId then true else s.mintedTokens id) = true
      by_cases hit : id = tokenId <;> simp [hit, h]
    · exact Nat.le_succ _
  | setColor caller tokenId r g b =>
    simp only [applyOp]
    unfold updateColor
    split_ifs <;> exact ⟨fun id h => h, le_refl _⟩
  | setColorBySteps caller tokenId rs gs bs =>
    simp only [applyOp]
    unfold updateColorBySteps
    split_ifs <;> exact ⟨fun id h => h, le_refl _⟩
  | withdrawEth caller transferOk =>
    simp only [applyOp]
    unfold withdraw
    split_ifs <;> exact ⟨fun id h => h, le_refl _⟩
  | deposit amount =>
    exact ⟨fun id h => h, le_refl _⟩

/-- C10 witness: after minting cell 1, a re-mint attempt, a recolor and a
withdrawal each leave cell 1 minted and `totalSupply` is never decreased. -/
theorem minted_monotone_witness :
    ((∀ id, (execOps 7 [Op.mint 5 1]).mintedTokens id = true →
        (applyOp (execOps 7 [Op.mint 5 1]) (Op.mint 6 1)).mintedTokens id = true) ∧
      (execOps 7 [Op.mint 5 1]).totalSupply
        ≤ (applyOp (execOps 7 [Op.mint 5 1]) (Op.mint 6 1)).totalSupply) ∧
    ((∀ id, (execOps 7 [Op.mint 5 1]).mintedTokens id = true →
        (applyOp (execOps 7 [Op.mint 5 1]) (Op.withdrawEth 7 true)).mintedTokens id
          = true) ∧
      (execOps 7 [Op.mint 5 1]).totalSupply
        ≤ (applyOp (execOps 7 [Op.mint 5 1]) (Op.withdrawEth 7 true)).totalSupply) :=
  ⟨minted_monotone (execOps 7 [Op.mint 5 1]) (Op.mint 6 1),
   minted_monotone (execOps 7 [Op.mint 5 1]) (Op.withdrawEth 7 true)⟩

end GridNFT
